import Mathlib

/-!
Verification of the gaze-estimation test client (GazeEstimationCpp/main.cpp)
against its natural-language specification.

The repository ships a single translation unit, `main.cpp`; the headers it
includes (OneCameraSpherical.hpp, TwoCameraSpherical.hpp, GenericCalibration.hpp,
Utils.hpp, InputOutputHelpers.hpp) are not part of the staged sources.  The
functions defined in `main.cpp` are embedded from the source; entities that live
only in the missing headers are modelled from the specification and say so in
their doc comments.  C++ `double` arithmetic is embedded as real arithmetic.
-/

namespace GazeEstimation

/-- Three-component real vector, the embedding of the source's `Vec3`
(a triple of doubles). -/
abbrev Vec3 : Type := Fin 3 → ℝ

/-- Two-component real vector, the embedding of the source's `Vec2`. -/
abbrev Vec2 : Type := Fin 2 → ℝ

/-- Modelled from the spec: `deg_to_rad` lives in Utils.hpp, which is not among
the staged sources; it is the usual degree-to-radian conversion the spec's
"alpha=-5°" style constants refer to. -/
noncomputable def deg_to_rad (d : ℝ) : ℝ := d * Real.pi / 180

/-- Modelled from the spec: the pinhole camera model of §4.1 ("principal point
(px, px), pixel pitch (cm/px, x and y), effective focal length (cm), 3D
position, 3D orientation (two or three rotation angles, composed into a
rotation matrix)").  PinholeCameraModel is declared in a header that is not
among the staged sources.  The spec's invariant says the cached rotation matrix
and the angle accessors always stay consistent, so the cache is represented by
the derived function `rotation_matrix` below rather than by a stored field. -/
structure PinholeCameraModel where
  principal_point_x : ℝ
  principal_point_y : ℝ
  pixel_size_cm_x : ℝ
  pixel_size_cm_y : ℝ
  effective_focal_length_cm : ℝ
  position : Vec3
  camera_angle_x : ℝ
  camera_angle_y : ℝ
  camera_angle_z : ℝ

/-- Modelled from the spec: rotation about the x axis by angle `a`. -/
noncomputable def rotation_about_x (a : ℝ) : Matrix (Fin 3) (Fin 3) ℝ :=
  ![![1, 0, 0],
    ![0, Real.cos a, -Real.sin a],
    ![0, Real.sin a, Real.cos a]]

/-- Modelled from the spec: rotation about the y axis by angle `a`. -/
noncomputable def rotation_about_y (a : ℝ) : Matrix (Fin 3) (Fin 3) ℝ :=
  ![![Real.cos a, 0, Real.sin a],
    ![0, 1, 0],
    ![-Real.sin a, 0, Real.cos a]]

/-- Modelled from the spec: rotation about the z axis by angle `a`. -/
noncomputable def rotation_about_z (a : ℝ) : Matrix (Fin 3) (Fin 3) ℝ :=
  ![![Real.cos a, -Real.sin a, 0],
    ![Real.sin a, Real.cos a, 0],
    ![0, 0, 1]]

/-- Modelled from the spec: the camera's rotation matrix, "three rotation
angles, composed into a rotation matrix" (§3).  By the §4.1 invariant this is
what the cached matrix always holds after a setter ran. -/
noncomputable def PinholeCameraModel.rotation_matrix (c : PinholeCameraModel) :
    Matrix (Fin 3) (Fin 3) ℝ :=
  rotation_about_z c.camera_angle_z * rotation_about_y c.camera_angle_y *
    rotation_about_x c.camera_angle_x

/-- Modelled from the spec: the three-angle setter used at main.cpp:105;
it stores the angles (and thereby recomputes the derived rotation matrix). -/
def PinholeCameraModel.set_camera_angles (c : PinholeCameraModel)
    (ax ay az : ℝ) : PinholeCameraModel :=
  { c with camera_angle_x := ax, camera_angle_y := ay, camera_angle_z := az }

/-- Modelled from the spec: the single-angle setter used by the applicator at
main.cpp:60. -/
def PinholeCameraModel.set_camera_angle_y (c : PinholeCameraModel) (ay : ℝ) :
    PinholeCameraModel :=
  { c with camera_angle_y := ay }

/-- Modelled from the spec: the single-angle setter used by the applicator at
main.cpp:61. -/
def PinholeCameraModel.set_camera_angle_z (c : PinholeCameraModel) (az : ℝ) :
    PinholeCameraModel :=
  { c with camera_angle_z := az }

/-- Modelled from the spec: the Parameter Bundle of §3
(EyeAndCameraParameters), declared in a header that is not among the staged
sources; its fields are the ones `main.cpp` reads and writes. -/
structure EyeAndCameraParameters where
  alpha : ℝ
  beta : ℝ
  R : ℝ
  K : ℝ
  n1 : ℝ
  n2 : ℝ
  D : ℝ
  cameras : List PinholeCameraModel
  light_positions : List Vec3
  distance_to_camera_estimate : ℝ

/-- Modelled from the spec: the estimation result of §3
(DefaultGazeEstimationResult): "3D cornea center, 3D unit visual-axis
direction". -/
structure DefaultGazeEstimationResult where
  center_of_cornea : Vec3
  visual_axis : Vec3

/-- Embedding of `calculate_point_of_interest` (main.cpp:26-30): walk from the
cornea center along the visual axis until the z component reaches `z_shift`.
The source divides by `visual_axis_unit_vector[2]` without a guard; real
division by zero is total (and yields 0) in this embedding. -/
noncomputable def calculate_point_of_interest (cornea_center : Vec3)
    (visual_axis_unit_vector : Vec3) (z_shift : ℝ) : Vec3 :=
  cornea_center +
    ((z_shift - cornea_center 2) / visual_axis_unit_vector 2) • visual_axis_unit_vector

/-- Embedding of `estimate_screen_point` (main.cpp:32-35). -/
noncomputable def estimate_screen_point (poi : Vec3)
    (screen_pixel_size_x screen_pixel_size_y : ℝ) : Vec2 :=
  ![poi 0 / screen_pixel_size_x, -(poi 1) / screen_pixel_size_y]

/-- Embedding of `result_processor` (main.cpp:66-70). -/
noncomputable def result_processor (result : DefaultGazeEstimationResult)
    (z_shift : ℝ) (wcs_offset : Vec3) : Vec3 :=
  calculate_point_of_interest result.center_of_cornea result.visual_axis z_shift -
    wcs_offset

/-- Functional content of `vecvec_to_pointer_pointer` (main.cpp:44-51): the
pointer table the adapter builds behaves, where it is read through, as the
lookup `a[i][j]` into the original vectors.  The adapter's memory behaviour
(it returns the address of a function-local vector's buffer) is outside this
embedding; out-of-range reads, undefined in C++, default to 0 here. -/
def vecvec_to_pointer_pointer (a : List (List ℝ)) : ℕ → ℕ → ℝ :=
  fun i j => (a.getD i []).getD j 0

/-- Embedding of `six_variable_calibration_applicator` (main.cpp:54-63): write
the six fitted scalars into the bundle, leaving everything else alone.  The
C++ takes `params` by value, so the caller's bundle is untouched; the double
pointer-to-pointer variables argument (here `vtable`) is embedded as a lookup function.  Writing
`cameras[0]` on an empty camera list is undefined in C++ and a no-op here. -/
def six_variable_calibration_applicator (params : EyeAndCameraParameters)
    (vtable : ℕ → ℕ → ℝ) : EyeAndCameraParameters :=
  { params with
    alpha := vtable 0 0
    beta := vtable 1 0
    R := vtable 2 0
    K := vtable 3 0
    cameras :=
      match params.cameras with
      | [] => []
      | c :: rest =>
          ((c.set_camera_angle_y (vtable 4 0)).set_camera_angle_z
            (vtable 5 0)) :: rest }

/-- Clamp a scalar into the inclusive interval held by `b`. -/
def clamp_scalar {α : Type} [LinearOrder α] (b : α × α) (x : α) : α :=
  max b.1 (min b.2 x)

/-- Clamp every scalar of a Variable Vector into its bound interval (the
engine's uniform policy for out-of-range candidates). -/
def clamp_vars {α : Type} [LinearOrder α] (bounds : List (List (α × α)))
    (vars : List (List α)) : List (List α) :=
  List.zipWith (List.zipWith clamp_scalar) bounds vars

/-- Read a Variable Vector as the flat two-index table the applicator
consumes (the engine's counterpart of the pointer-table adapter). -/
def table_of_vars {α : Type} [Zero α] (vars : List (List α)) : ℕ → ℕ → α :=
  fun i j => (vars.getD i []).getD j 0

/-- Perturb the scalar at row `i`, column `j` of a Variable Vector by `d`;
out-of-range positions are left alone. -/
def perturb_vars {α : Type} [Add α] [Zero α] (vars : List (List α)) (i j : ℕ)
    (d : α) : List (List α) :=
  vars.set i ((vars.getD i []).set j ((vars.getD i []).getD j 0 + d))

/-- Candidate Variable Vectors one search step considers from `vars`: each
scalar moved by `+d` and by `-d`, clamped back into bounds before any cost is
evaluated. -/
def search_candidates {α : Type} [LinearOrder α] [Add α] [Zero α] [Neg α]
    (bounds : List (List (α × α))) (vars : List (List α)) (d : α) :
    List (List (List α)) :=
  (List.range bounds.length).flatMap fun i =>
    (List.range ((bounds.getD i []).length)).flatMap fun j =>
      [clamp_vars bounds (perturb_vars vars i j d),
       clamp_vars bounds (perturb_vars vars i j (-d))]

/-- Keep the lowest-cost Variable Vector among the current one and the
candidates. -/
def pick_best {α β : Type} [LinearOrder β] (cost : List (List α) → β)
    (cands : List (List (List α))) (best : List (List α)) : List (List α) :=
  cands.foldl (fun b c => if cost c < cost b then c else b) best

/-- Squared Euclidean distance between two 3D points, the per-sample
discrepancy the engine aggregates ("sum of squared error", spec §4.3). -/
def squared_distance {α : Type} [Ring α] (u v : Fin 3 → α) : α :=
  (u 0 - v 0) ^ 2 + (u 1 - v 1) ^ 2 + (u 2 - v 2) ^ 2

/-- Iteration budget of the engine's search ("a maximum iteration count",
spec §4.3). -/
def calibration_iteration_budget : ℕ := 16

/-- Modelled from the spec: `GenericCalibration::calibrate`
(GenericCalibration.hpp, not among the staged sources), the bounded nonlinear
fit of §4.3.  For each candidate Variable Vector it builds a candidate bundle
via the applicator, runs the estimator on every sample, reduces each result,
and sums the squared discrepancies into one scalar cost; the search explores
per-scalar perturbations with a shrinking step, clamps every candidate into
the bounds (one uniform policy) before evaluating it, and after the iteration
budget returns the best Variable Vector found - not the Parameter Bundle. -/
def GenericCalibration.calibrate {α P O R2 : Type} [LinearOrderedField α]
    (estimate : O → P → R2) (base_parameters : P)
    (applicator : P → (ℕ → ℕ → α) → P)
    (objective_reducer : R2 → (Fin 3 → α))
    (samples : List (O × (Fin 3 → α)))
    (initial_values : List (List α))
    (bounds : List (List (α × α))) : List (List α) :=
  let cost : List (List α) → α := fun vars =>
    (samples.map (fun s =>
      squared_distance
        (objective_reducer
          (estimate s.1 (applicator base_parameters (table_of_vars vars))))
        s.2)).sum
  (List.range calibration_iteration_budget).foldl
    (fun vars k =>
      pick_best cost (search_candidates bounds vars ((1 : α) / 2 ^ k)) vars)
    (clamp_vars bounds initial_values)

/-- Camera position of the one-camera scenario, `actual_camera_position`
(main.cpp:94). -/
noncomputable def onecamera_actual_camera_position : Vec3 := ![24.5, -35, 10]

/-- World-coordinate-system offset of the one-camera scenario (main.cpp:95):
the negated camera position, so that the world origin sits at the camera. -/
noncomputable def onecamera_wcs_offset : Vec3 := -![24.5, -35, 10]

/-- The one-camera scenario's camera (main.cpp:98-105): intrinsics assigned
field by field, then `set_camera_angles(deg_to_rad(8), 0, 0)`. -/
noncomputable def onecamera_camera : PinholeCameraModel :=
  PinholeCameraModel.set_camera_angles
    { principal_point_x := 299.5
      principal_point_y := 399.5
      pixel_size_cm_x := 2.4 * 1e-6
      pixel_size_cm_y := 2.4 * 1e-6
      effective_focal_length_cm := 0.0119144
      position := onecamera_actual_camera_position + onecamera_wcs_offset
      camera_angle_x := 0
      camera_angle_y := 0
      camera_angle_z := 0 }
    (deg_to_rad 8) 0 0

/-- The one-camera scenario's Parameter Bundle as configured at
main.cpp:84-113. -/
noncomputable def onecamera_parameters : EyeAndCameraParameters :=
  { alpha := deg_to_rad (-5)
    beta := deg_to_rad 1.5
    R := 0.78
    K := 0.42
    n1 := 1.3375
    n2 := 1
    D := 0.53
    cameras := [onecamera_camera]
    light_positions :=
      [onecamera_actual_camera_position + ![13, 0, 0] + onecamera_wcs_offset,
       onecamera_actual_camera_position + ![-13, 0, 0] + onecamera_wcs_offset]
    distance_to_camera_estimate := 10 }

/-- Screen pixel width in cm of the one-camera scenario (main.cpp:116-121). -/
noncomputable def onecamera_screen_pixel_size_x : ℝ := 48.7 / 1680

/-- Screen pixel height in cm of the one-camera scenario (main.cpp:117-122). -/
noncomputable def onecamera_screen_pixel_size_y : ℝ := 27.4 / 1050

/-- Target-plane shift of the one-camera scenario (main.cpp:124). -/
noncomputable def onecamera_z_shift : ℝ := -(onecamera_actual_camera_position 2)

/-- Initial Variable Vector of the one-camera calibration (main.cpp:139-145),
read off the freshly configured bundle; `cameras[0]` is `onecamera_camera`. -/
noncomputable def onecamera_initial_values : List (List ℝ) :=
  [[onecamera_parameters.alpha],
   [onecamera_parameters.beta],
   [onecamera_parameters.R],
   [onecamera_parameters.K],
   [onecamera_camera.camera_angle_y],
   [onecamera_camera.camera_angle_z]]

/-- Bounds Array of the one-camera calibration (main.cpp:146-153). -/
noncomputable def onecamera_bounds : List (List (ℝ × ℝ)) :=
  [[(deg_to_rad (-10), deg_to_rad 10)],
   [(deg_to_rad (-5), deg_to_rad 5)],
   [(0.3, 2.0)],
   [(0.2, 1.5)],
   [(deg_to_rad (-8), deg_to_rad 8)],
   [(deg_to_rad (-5), deg_to_rad 5)]]

/-- World-frame calibration target built from a true point of gaze in screen
pixels, as in the calibration-sample loop (main.cpp:131-137). -/
noncomputable def calibration_target_point (true_pog : Vec2)
    (screen_pixel_size_x screen_pixel_size_y : ℝ) : Vec3 :=
  ![true_pog 0 * screen_pixel_size_x, -(true_pog 1) * screen_pixel_size_y, 0]

/-- Modelled from the spec: the Observation record of §3
(PupilCenterGlintInputs, declared in a header that is not among the staged
sources): "per-frame pixel coordinates of the pupil center and of each
detected glint, one set per camera in use". -/
structure PupilCenterGlintInputs where
  pupil_centers : List Vec2
  glints : List (List Vec2)

/-- Modelled from the spec: the outcome of one estimator call.  The geometric
solver itself (OneCameraSpherical.hpp) is not among the staged sources; per
§4.2 and §7 a degenerate-geometry failure is "surfaced as a distinct failure,
not a silently wrong numeric result", so the modelled outcome couples the
numeric result with a success indication.  The evaluation loop of `main.cpp`
binds only the numeric result and never consults any failure indication. -/
structure GazeEstimationOutcome where
  result : DefaultGazeEstimationResult
  succeeded : Bool

/-- Modelled from the spec: Euclidean length of a 2D vector, the `length`
helper of Utils.hpp (not among the staged sources) used for the per-sample
error magnitudes. -/
noncomputable def vec2_length (v : Vec2) : ℝ :=
  Real.sqrt (v 0 ^ 2 + v 1 ^ 2)

/-- Accumulator of the per-sample evaluation loop (main.cpp:176-178): the
three vectors the loop pushes into. -/
structure OneCameraEvalState where
  errors_pixels : List ℝ
  errors_cm : List ℝ
  estimates : List Vec2

/-- One pass of the per-sample evaluation loop body (main.cpp:179-200): run
the estimator, intersect with the target plane, convert to screen pixels, and
push this sample's pixel error, cm error and estimate.  Every sample is
processed the same way; nothing is skipped or flagged. -/
noncomputable def onecamera_eval_step
    (est : PupilCenterGlintInputs → EyeAndCameraParameters → GazeEstimationOutcome)
    (pars : EyeAndCameraParameters) (z_shift : ℝ) (wcs_offset : Vec3)
    (sx sy : ℝ) (st : OneCameraEvalState)
    (sample : PupilCenterGlintInputs × Vec2) : OneCameraEvalState :=
  let result := (est sample.1 pars).result
  let poi_gecs :=
    calculate_point_of_interest result.center_of_cornea result.visual_axis z_shift
  let poi_wcs := poi_gecs - wcs_offset
  let pos_on_screen := estimate_screen_point poi_wcs sx sy
  let delta_pixels := pos_on_screen - sample.2
  let delta_cm :=
    ![sample.2 0 * sx, -(sample.2 1) * sy] - ![poi_wcs 0, poi_wcs 1]
  { errors_pixels := st.errors_pixels ++ [vec2_length delta_pixels]
    errors_cm := st.errors_cm ++ [vec2_length delta_cm]
    estimates := st.estimates ++ [pos_on_screen] }

/-- The whole per-sample evaluation loop (main.cpp:176-200), folded over the
test data from empty accumulators. -/
noncomputable def onecamera_eval
    (est : PupilCenterGlintInputs → EyeAndCameraParameters → GazeEstimationOutcome)
    (pars : EyeAndCameraParameters) (z_shift : ℝ) (wcs_offset : Vec3)
    (sx sy : ℝ) (test_data : List (PupilCenterGlintInputs × Vec2)) :
    OneCameraEvalState :=
  test_data.foldl (onecamera_eval_step est pars z_shift wcs_offset sx sy)
    ⟨[], [], []⟩

/-- Reported average pixel error (main.cpp:212): sum of the accumulated
errors divided by their count. -/
noncomputable def onecamera_avg_error_pixels
    (est : PupilCenterGlintInputs → EyeAndCameraParameters → GazeEstimationOutcome)
    (pars : EyeAndCameraParameters) (z_shift : ℝ) (wcs_offset : Vec3)
    (sx sy : ℝ) (test_data : List (PupilCenterGlintInputs × Vec2)) : ℝ :=
  ((onecamera_eval est pars z_shift wcs_offset sx sy test_data).errors_pixels).sum /
    (((onecamera_eval est pars z_shift wcs_offset sx sy test_data).errors_pixels).length : ℝ)

/-- Reported average cm error (main.cpp:213). -/
noncomputable def onecamera_avg_error_cm
    (est : PupilCenterGlintInputs → EyeAndCameraParameters → GazeEstimationOutcome)
    (pars : EyeAndCameraParameters) (z_shift : ℝ) (wcs_offset : Vec3)
    (sx sy : ℝ) (test_data : List (PupilCenterGlintInputs × Vec2)) : ℝ :=
  ((onecamera_eval est pars z_shift wcs_offset sx sy test_data).errors_cm).sum /
    (((onecamera_eval est pars z_shift wcs_offset sx sy test_data).errors_cm).length : ℝ)

/-- Closed form of one sample's pixel error, as the loop body computes it. -/
noncomputable def onecamera_sample_error_pixels
    (est : PupilCenterGlintInputs → EyeAndCameraParameters → GazeEstimationOutcome)
    (pars : EyeAndCameraParameters) (z_shift : ℝ) (wcs_offset : Vec3)
    (sx sy : ℝ) (sample : PupilCenterGlintInputs × Vec2) : ℝ :=
  vec2_length
    (estimate_screen_point
      (calculate_point_of_interest ((est sample.1 pars).result.center_of_cornea)
        ((est sample.1 pars).result.visual_axis) z_shift - wcs_offset) sx sy -
      sample.2)

/-- Closed form of one sample's cm error, as the loop body computes it. -/
noncomputable def onecamera_sample_error_cm
    (est : PupilCenterGlintInputs → EyeAndCameraParameters → GazeEstimationOutcome)
    (pars : EyeAndCameraParameters) (z_shift : ℝ) (wcs_offset : Vec3)
    (sx sy : ℝ) (sample : PupilCenterGlintInputs × Vec2) : ℝ :=
  vec2_length
    (![sample.2 0 * sx, -(sample.2 1) * sy] -
      ![(calculate_point_of_interest ((est sample.1 pars).result.center_of_cornea)
          ((est sample.1 pars).result.visual_axis) z_shift - wcs_offset) 0,
        (calculate_point_of_interest ((est sample.1 pars).result.center_of_cornea)
          ((est sample.1 pars).result.visual_axis) z_shift - wcs_offset) 1])

/-- What the specification's words prescribe for the reported average pixel
error: "computed only over samples whose estimation succeeded".  Stated from
the spec's words, to be compared with `onecamera_avg_error_pixels`, which is
what the code does. -/
noncomputable def spec_avg_error_pixels_succeeded_only
    (est : PupilCenterGlintInputs → EyeAndCameraParameters → GazeEstimationOutcome)
    (pars : EyeAndCameraParameters) (z_shift : ℝ) (wcs_offset : Vec3)
    (sx sy : ℝ) (test_data : List (PupilCenterGlintInputs × Vec2)) : ℝ :=
  let succ := test_data.filter (fun s => (est s.1 pars).succeeded)
  (succ.map (onecamera_sample_error_pixels est pars z_shift wcs_offset sx sy)).sum /
    (succ.length : ℝ)

/-- Closed form of one sample's on-screen estimate, as the loop body computes
it. -/
noncomputable def onecamera_sample_estimate
    (est : PupilCenterGlintInputs → EyeAndCameraParameters → GazeEstimationOutcome)
    (pars : EyeAndCameraParameters) (z_shift : ℝ) (wcs_offset : Vec3)
    (sx sy : ℝ) (sample : PupilCenterGlintInputs × Vec2) : Vec2 :=
  estimate_screen_point
    (calculate_point_of_interest ((est sample.1 pars).result.center_of_cornea)
      ((est sample.1 pars).result.visual_axis) z_shift - wcs_offset) sx sy

/-- Shape agreement between a Bounds Array and a Variable Vector (or any two
row tables): same row count, same per-row lengths. -/
def SameShape {β γ : Type} (a : List (List β)) (b : List (List γ)) : Prop :=
  a.map List.length = b.map List.length

/-- Every interval of the Bounds Array is non-degenerate: low ≤ high. -/
def ValidBounds {α : Type} [LinearOrder α] (bounds : List (List (α × α))) : Prop :=
  ∀ row ∈ bounds, ∀ b ∈ row, b.1 ≤ b.2

/-- A Variable Vector has the shape of the Bounds Array and every scalar lies
inside its inclusive bound interval. -/
def InBounds {α : Type} [LinearOrder α] (bounds : List (List (α × α)))
    (vars : List (List α)) : Prop :=
  List.Forall₂ (List.Forall₂ fun b x => b.1 ≤ x ∧ x ≤ b.2) bounds vars

/-- Deciding `ValidBounds` by checking each interval. -/
instance {α : Type} [LinearOrder α] (bounds : List (List (α × α))) :
    Decidable (ValidBounds bounds) :=
  decidable_of_iff (∀ row ∈ bounds, ∀ b ∈ row, b.1 ≤ b.2) Iff.rfl

/-- The one-camera harness's calibration call (main.cpp:155-160): the engine
is handed the estimator, the freshly configured bundle, the six-variable
applicator, the bound `result_processor`, the samples, the initial values and
the bounds, and returns a Variable Vector. -/
noncomputable def onecamera_calibration_result
    (est : PupilCenterGlintInputs → EyeAndCameraParameters → GazeEstimationOutcome)
    (samples : List (PupilCenterGlintInputs × Vec3)) : List (List ℝ) :=
  GenericCalibration.calibrate (fun o p => (est o p).result) onecamera_parameters
    six_variable_calibration_applicator
    (fun r => result_processor r onecamera_z_shift onecamera_wcs_offset)
    samples onecamera_initial_values onecamera_bounds

/-- The harness's final Parameter Bundle (main.cpp:161): the caller, not the
engine, pushes the returned Variable Vector back through the applicator via
the pointer-table adapter. -/
noncomputable def onecamera_final_parameters
    (est : PupilCenterGlintInputs → EyeAndCameraParameters → GazeEstimationOutcome)
    (samples : List (PupilCenterGlintInputs × Vec3)) : EyeAndCameraParameters :=
  six_variable_calibration_applicator onecamera_parameters
    (vecvec_to_pointer_pointer (onecamera_calibration_result est samples))

/-- Concrete camera used by witness statements. -/
def witness_camera : PinholeCameraModel :=
  { principal_point_x := 1
    principal_point_y := 2
    pixel_size_cm_x := 3
    pixel_size_cm_y := 4
    effective_focal_length_cm := 5
    position := ![0, 0, 0]
    camera_angle_x := 0
    camera_angle_y := 0
    camera_angle_z := 0 }

/-- Concrete base Parameter Bundle used by witness statements. -/
def witness_base : EyeAndCameraParameters :=
  { alpha := 1
    beta := 2
    R := 3
    K := 4
    n1 := 5
    n2 := 6
    D := 7
    cameras := [witness_camera]
    light_positions := []
    distance_to_camera_estimate := 8 }

/-- Concrete variable table used by witness statements: entry (i, j) holds
the value 10 * i + j. -/
def witness_table : ℕ → ℕ → ℝ :=
  fun i j => (10 * i + j : ℕ)

/-- Observation whose estimation succeeds in the evaluation-loop scenario. -/
def eval_good_observation : PupilCenterGlintInputs :=
  { pupil_centers := [], glints := [] }

/-- Observation whose estimation fails (degenerate geometry) in the
evaluation-loop scenario. -/
def eval_bad_observation : PupilCenterGlintInputs :=
  { pupil_centers := [![1, 1]], glints := [] }

/-- Estimator of the evaluation-loop scenario: it succeeds on the empty
observation, pointing straight at the world origin, and on any other
observation it fails, leaving the garbage cornea center (7, 0, 0) in the
numeric result while flagging the failure. -/
noncomputable def eval_scenario_estimator :
    PupilCenterGlintInputs → EyeAndCameraParameters → GazeEstimationOutcome :=
  fun o _ =>
    if o.pupil_centers.length = 0 then
      { result := { center_of_cornea := ![0, 0, 0], visual_axis := ![0, 0, 1] }
        succeeded := true }
    else
      { result := { center_of_cornea := ![7, 0, 0], visual_axis := ![0, 0, 1] }
        succeeded := false }

/-- Parameter Bundle of the evaluation-loop scenario (its contents are never
read by that scenario's estimator). -/
def eval_scenario_parameters : EyeAndCameraParameters :=
  { alpha := 0, beta := 0, R := 0, K := 0, n1 := 0, n2 := 0, D := 0
    cameras := [], light_positions := [], distance_to_camera_estimate := 0 }

/-- Test data of the evaluation-loop scenario: one succeeding and one failing
sample, both with true point of gaze at the screen origin. -/
def eval_scenario_test_data : List (PupilCenterGlintInputs × Vec2) :=
  [(eval_good_observation, ![0, 0]), (eval_bad_observation, ![0, 0])]

/-- C1: `six_variable_calibration_applicator` is pure with respect to its base
bundle and writes exactly six scalars: alpha, beta, R and K are taken from
rows 0-3 of the variable table, camera 0 gets its y and z angles from rows 4
and 5, and every other field of the returned bundle - n1, n2, D, the light
positions, the distance estimate, the remaining cameras and camera 0's other
fields - equals the base's.  Purity towards the base is inherent in the
embedding: the function returns a new bundle and takes its argument by value. -/
theorem six_variable_calibration_applicator_writes_exactly_six
    (base : EyeAndCameraParameters) (vtable : ℕ → ℕ → ℝ)
    (c0 : PinholeCameraModel) (rest : List PinholeCameraModel)
    (hc : base.cameras = c0 :: rest) :
    (six_variable_calibration_applicator base vtable).alpha = vtable 0 0 ∧
    (six_variable_calibration_applicator base vtable).beta = vtable 1 0 ∧
    (six_variable_calibration_applicator base vtable).R = vtable 2 0 ∧
    (six_variable_calibration_applicator base vtable).K = vtable 3 0 ∧
    (six_variable_calibration_applicator base vtable).cameras =
      { c0 with camera_angle_y := vtable 4 0, camera_angle_z := vtable 5 0 } :: rest ∧
    (six_variable_calibration_applicator base vtable).n1 = base.n1 ∧
    (six_variable_calibration_applicator base vtable).n2 = base.n2 ∧
    (six_variable_calibration_applicator base vtable).D = base.D ∧
    (six_variable_calibration_applicator base vtable).light_positions =
      base.light_positions ∧
    (six_variable_calibration_applicator base vtable).distance_to_camera_estimate =
      base.distance_to_camera_estimate := by
  refine ⟨rfl, rfl, rfl, rfl, ?_, rfl, rfl, rfl, rfl, rfl⟩
  simp only [six_variable_calibration_applicator, hc]
  rfl

/-- C1 witness: the theorem applied to a concrete bundle, concrete camera and
the concrete table (i, j) to 10 * i + j. -/
theorem six_variable_calibration_applicator_witness :
    witness_base.cameras = witness_camera :: [] ∧
    (six_variable_calibration_applicator witness_base witness_table).alpha =
      witness_table 0 0 ∧
    (six_variable_calibration_applicator witness_base witness_table).cameras =
      { witness_camera with
          camera_angle_y := witness_table 4 0,
          camera_angle_z := witness_table 5 0 } :: [] :=
  have h := six_variable_calibration_applicator_writes_exactly_six
    witness_base witness_table witness_camera [] rfl
  ⟨rfl, h.1, h.2.2.2.2.1⟩

/-- C2: for a visual axis whose z component is nonzero,
`calculate_point_of_interest` returns the intersection of the line through
the cornea center with direction the visual axis and the plane z = z_shift:
the returned point has z component exactly `z_shift` and lies on that line. -/
theorem calculate_point_of_interest_intersects_plane
    (cornea_center visual_axis : Vec3) (z_shift : ℝ)
    (hv : visual_axis 2 ≠ 0) :
    (calculate_point_of_interest cornea_center visual_axis z_shift) 2 = z_shift ∧
    ∃ t : ℝ, calculate_point_of_interest cornea_center visual_axis z_shift =
      cornea_center + t • visual_axis := by
  constructor
  · show cornea_center 2 +
      ((z_shift - cornea_center 2) / visual_axis 2) * visual_axis 2 = z_shift
    rw [div_mul_cancel₀ _ hv]
    ring
  · exact ⟨(z_shift - cornea_center 2) / visual_axis 2, rfl⟩

/-- C2 witness: the theorem applied at cornea center (1, 2, 3), visual axis
(0, 0, 1) and target plane z = 5. -/
theorem calculate_point_of_interest_witness :
    (![0, 0, (1:ℝ)] : Vec3) 2 ≠ 0 ∧
    ((calculate_point_of_interest ![1, 2, 3] ![0, 0, 1] 5) 2 = 5 ∧
      ∃ t : ℝ, calculate_point_of_interest ![1, 2, 3] ![0, 0, 1] 5 =
        ![1, 2, 3] + t • ![0, 0, 1]) :=
  have h : (![0, 0, (1:ℝ)] : Vec3) 2 ≠ 0 := by norm_num
  ⟨h, calculate_point_of_interest_intersects_plane ![1, 2, 3] ![0, 0, 1] 5 h⟩

/-- C9: the division by the visual axis's z component is unguarded.  When
that component is 0 the embedded function still returns a value (there is no
error branch or failure channel): the z component of the returned point stays
at the cornea center's, so for any target plane not through the cornea center
the returned point is not on the plane; and `result_processor` forwards the
value unconditionally, with no precondition check. -/
theorem calculate_point_of_interest_unguarded_division
    (cornea_center visual_axis : Vec3) (z_shift : ℝ) (wcs_offset : Vec3)
    (hv : visual_axis 2 = 0) (hz : z_shift ≠ cornea_center 2) :
    (calculate_point_of_interest cornea_center visual_axis z_shift) 2 =
      cornea_center 2 ∧
    (calculate_point_of_interest cornea_center visual_axis z_shift) 2 ≠ z_shift ∧
    result_processor ⟨cornea_center, visual_axis⟩ z_shift wcs_offset =
      calculate_point_of_interest cornea_center visual_axis z_shift -
        wcs_offset := by
  have h2 : (calculate_point_of_interest cornea_center visual_axis z_shift) 2 =
      cornea_center 2 := by
    show cornea_center 2 +
      ((z_shift - cornea_center 2) / visual_axis 2) * visual_axis 2 =
        cornea_center 2
    rw [hv, mul_zero, add_zero]
  exact ⟨h2, by rw [h2]; exact fun hh => hz hh.symm, rfl⟩

/-- C9 witness: the theorem applied at cornea center (0, 0, 3), a visual axis
(1, 0, 0) parallel to the target plane, target plane z = 5 and world offset
zero. -/
theorem calculate_point_of_interest_unguarded_witness :
    (![(1:ℝ), 0, 0] : Vec3) 2 = 0 ∧
    (5 : ℝ) ≠ (![0, 0, (3:ℝ)] : Vec3) 2 ∧
    (calculate_point_of_interest ![0, 0, 3] ![1, 0, 0] 5) 2 ≠ 5 :=
  have h1 : (![(1:ℝ), 0, 0] : Vec3) 2 = 0 := rfl
  have h2 : (5 : ℝ) ≠ (![0, 0, (3:ℝ)] : Vec3) 2 := by norm_num
  ⟨h1, h2,
    (calculate_point_of_interest_unguarded_division ![0, 0, 3] ![1, 0, 0] 5 0
      h1 h2).2.1⟩

/-- C10: the harness's screen-to-world and world-to-screen conversions are
mutually inverse, including the y-axis sign flip: a true point of gaze in
pixels, mapped to the world target point used for calibration samples and
converted back with `estimate_screen_point`, comes back exactly, for positive
pixel sizes. -/
theorem screen_world_roundtrip (true_pog : Vec2)
    (screen_pixel_size_x screen_pixel_size_y : ℝ)
    (hx : 0 < screen_pixel_size_x) (hy : 0 < screen_pixel_size_y) :
    estimate_screen_point
      (calibration_target_point true_pog screen_pixel_size_x screen_pixel_size_y)
      screen_pixel_size_x screen_pixel_size_y = true_pog := by
  have h0 : estimate_screen_point
      (calibration_target_point true_pog screen_pixel_size_x screen_pixel_size_y)
      screen_pixel_size_x screen_pixel_size_y 0 = true_pog 0 := by
    show (true_pog 0 * screen_pixel_size_x) / screen_pixel_size_x = true_pog 0
    exact mul_div_cancel_right₀ _ hx.ne'
  have h1 : estimate_screen_point
      (calibration_target_point true_pog screen_pixel_size_x screen_pixel_size_y)
      screen_pixel_size_x screen_pixel_size_y 1 = true_pog 1 := by
    show -(-(true_pog 1) * screen_pixel_size_y) / screen_pixel_size_y = true_pog 1
    rw [neg_mul, neg_neg]
    exact mul_div_cancel_right₀ _ hy.ne'
  funext i
  fin_cases i
  · exact h0
  · exact h1

/-- C10 witness: the theorem applied at the pixel position (3, 4) with pixel
sizes 2 and 5. -/
theorem screen_world_roundtrip_witness :
    (0 : ℝ) < 2 ∧ (0 : ℝ) < 5 ∧
    estimate_screen_point (calibration_target_point ![3, 4] 2 5) 2 5 =
      ![3, 4] :=
  ⟨by norm_num, by norm_num,
    screen_world_roundtrip ![3, 4] 2 5 (by norm_num) (by norm_num)⟩

/-- C7: the camera angle round-trip is exact: after `set_camera_angles` the
getters return exactly the y and z angles that were set (the stored angles),
and the rotation matrix derived from the camera equals the matrix composed
from exactly those set angles, so matrix and angles stay consistent. -/
theorem set_camera_angles_roundtrip (c : PinholeCameraModel) (ax ay az : ℝ) :
    (c.set_camera_angles ax ay az).camera_angle_y = ay ∧
    (c.set_camera_angles ax ay az).camera_angle_z = az ∧
    (c.set_camera_angles ax ay az).rotation_matrix =
      rotation_about_z az * rotation_about_y ay * rotation_about_x ax :=
  ⟨rfl, rfl, rfl⟩

/-- C6 counterexample: the one-camera scenario's world offset is not zero;
main.cpp:95 sets it to the negated camera position. -/
theorem onecamera_wcs_offset_not_zero : onecamera_wcs_offset ≠ 0 := by
  intro h
  have h0 := congrFun h 0
  simp only [onecamera_wcs_offset, Pi.neg_apply, Matrix.cons_val_zero,
    Pi.zero_apply] at h0
  norm_num at h0

/-- C6 (amended): the one-camera harness configures a camera whose scenario
position is (24.5, -35, 10) cm combined with the world offset
-(24.5, -35, 10) - so the camera sits at the world origin, not at a zero
world offset - principal point (299.5, 399.5) px, pixel pitch 2.4e-6 cm in
both axes, focal length 0.0119144 cm, two lights displaced by +13 and -13 cm
in x from the camera, and eye parameters alpha = -5 deg, beta = 1.5 deg,
R = 0.78, K = 0.42, n1 = 1.3375, n2 = 1, D = 0.53. -/
theorem onecamera_scenario_constants :
    onecamera_wcs_offset = -![24.5, -35, 10] ∧
    onecamera_camera.position = ![24.5, -35, 10] + onecamera_wcs_offset ∧
    onecamera_camera.position = 0 ∧
    onecamera_camera.principal_point_x = 299.5 ∧
    onecamera_camera.principal_point_y = 399.5 ∧
    onecamera_camera.pixel_size_cm_x = 2.4 * 1e-6 ∧
    onecamera_camera.pixel_size_cm_y = 2.4 * 1e-6 ∧
    onecamera_camera.effective_focal_length_cm = 0.0119144 ∧
    onecamera_parameters.light_positions =
      [![24.5, -35, 10] + ![13, 0, 0] + onecamera_wcs_offset,
       ![24.5, -35, 10] + ![-13, 0, 0] + onecamera_wcs_offset] ∧
    onecamera_parameters.alpha = deg_to_rad (-5) ∧
    onecamera_parameters.beta = deg_to_rad 1.5 ∧
    onecamera_parameters.R = 0.78 ∧
    onecamera_parameters.K = 0.42 ∧
    onecamera_parameters.n1 = 1.3375 ∧
    onecamera_parameters.n2 = 1 ∧
    onecamera_parameters.D = 0.53 := by
  refine ⟨rfl, rfl, ?_, rfl, rfl, rfl, rfl, rfl, rfl, rfl, rfl, rfl, rfl,
    rfl, rfl, rfl⟩
  show onecamera_actual_camera_position + onecamera_wcs_offset = 0
  funext i
  simp only [onecamera_actual_camera_position, onecamera_wcs_offset,
    Pi.add_apply, Pi.neg_apply, Pi.zero_apply]
  ring

/-- C8: the functional consequence clause of the claim, stated over the
embedding of the adapter's read behaviour: applying
`six_variable_calibration_applicator` through `vecvec_to_pointer_pointer` on
a six-row calibration result reads exactly the values result[i][0].  The
claim's memory clauses (no allocation, pointers that stay valid) are settled
against the C++ source directly: see the C8 record. -/
theorem vecvec_to_pointer_pointer_reads_first_entries
    (x0 x1 x2 x3 x4 x5 : ℝ) (base : EyeAndCameraParameters) :
    (six_variable_calibration_applicator base
      (vecvec_to_pointer_pointer [[x0], [x1], [x2], [x3], [x4], [x5]])).alpha =
      x0 ∧
    (six_variable_calibration_applicator base
      (vecvec_to_pointer_pointer [[x0], [x1], [x2], [x3], [x4], [x5]])).beta =
      x1 ∧
    (six_variable_calibration_applicator base
      (vecvec_to_pointer_pointer [[x0], [x1], [x2], [x3], [x4], [x5]])).R = x2 ∧
    (six_variable_calibration_applicator base
      (vecvec_to_pointer_pointer [[x0], [x1], [x2], [x3], [x4], [x5]])).K = x3 ∧
    vecvec_to_pointer_pointer [[x0], [x1], [x2], [x3], [x4], [x5]] 4 0 = x4 ∧
    vecvec_to_pointer_pointer [[x0], [x1], [x2], [x3], [x4], [x5]] 5 0 = x5 :=
  ⟨rfl, rfl, rfl, rfl, rfl, rfl⟩

/-- Clamping a scalar lands inside a non-degenerate bound interval. -/
theorem clamp_scalar_mem {α : Type} [LinearOrder α] {b : α × α} (h : b.1 ≤ b.2)
    (x : α) : b.1 ≤ clamp_scalar b x ∧ clamp_scalar b x ≤ b.2 :=
  ⟨le_max_left _ _, max_le h (min_le_left _ _)⟩

/-- Clamping a row of scalars against a row of non-degenerate bounds of the
same length puts every scalar inside its interval. -/
theorem clamp_row_inBounds {α : Type} [LinearOrder α] :
    ∀ (brow : List (α × α)) (vrow : List α),
      (∀ b ∈ brow, b.1 ≤ b.2) → brow.length = vrow.length →
      List.Forall₂ (fun b x => b.1 ≤ x ∧ x ≤ b.2) brow
        (List.zipWith clamp_scalar brow vrow)
  | [], _, _, _ => List.Forall₂.nil
  | b :: brow, v :: vrow, h, hl =>
      List.Forall₂.cons (clamp_scalar_mem (h b (List.mem_cons_self b brow)) v)
        (clamp_row_inBounds brow vrow
          (fun x hx => h x (List.mem_cons_of_mem b hx))
          (Nat.succ_injective hl))

/-- Clamping a whole Variable Vector of the Bounds Array's shape against
non-degenerate bounds yields an in-bounds vector. -/
theorem clamp_vars_inBounds {α : Type} [LinearOrder α] :
    ∀ (bounds : List (List (α × α))) (vars : List (List α)),
      ValidBounds bounds → SameShape bounds vars →
      InBounds bounds (clamp_vars bounds vars)
  | [], _, _, _ => List.Forall₂.nil
  | brow :: bounds, [], _, hs => by
      simp [SameShape] at hs
  | brow :: bounds, vrow :: vars, hb, hs => by
      have hs1 : brow.length = vrow.length ∧
          bounds.map List.length = vars.map List.length := by
        simpa [SameShape] using hs
      exact List.Forall₂.cons
        (clamp_row_inBounds brow vrow
          (hb brow (List.mem_cons_self brow bounds)) hs1.1)
        (clamp_vars_inBounds bounds vars
          (fun r hr => hb r (List.mem_cons_of_mem brow hr)) hs1.2)

/-- An in-bounds Variable Vector has the Bounds Array's shape. -/
theorem inBounds_sameShape {α : Type} [LinearOrder α]
    {bounds : List (List (α × α))} {vars : List (List α)}
    (h : InBounds bounds vars) : SameShape bounds vars := by
  induction h with
  | nil => rfl
  | cons hpair _ ih =>
      simp only [SameShape, List.map_cons, List.cons.injEq]
      exact ⟨List.Forall₂.length_eq hpair, ih⟩

/-- Replacing row `i` of a row table by a row of the same length preserves
the table's shape. -/
theorem map_length_set_of_length_eq {β : Type} :
    ∀ (l : List (List β)) (i : ℕ) (r : List β),
      r.length = (l.getD i []).length →
      (l.set i r).map List.length = l.map List.length
  | [], _, _, _ => rfl
  | a :: t, 0, r, h => by
      simp only [List.set_cons_zero, List.map_cons]
      rw [show r.length = a.length by simpa using h]
  | a :: t, i + 1, r, h => by
      simp only [List.set_cons_succ, List.map_cons]
      rw [map_length_set_of_length_eq t i r h]

/-- Perturbing one scalar of a Variable Vector preserves its shape. -/
theorem perturb_vars_sameShape {α : Type} [Add α] [Zero α]
    {bounds : List (List (α × α))} {vars : List (List α)}
    (hs : SameShape bounds vars) (i j : ℕ) (d : α) :
    SameShape bounds (perturb_vars vars i j d) := by
  unfold SameShape at hs ⊢
  rw [perturb_vars, map_length_set_of_length_eq vars i _ (by
    simp [List.length_set])]
  exact hs

/-- Every candidate the search generates has been clamped into the bounds
before any cost evaluation: all candidates are in bounds. -/
theorem search_candidates_inBounds {α : Type} [LinearOrderedField α]
    {bounds : List (List (α × α))} {vars : List (List α)}
    (hb : ValidBounds bounds) (hs : SameShape bounds vars) (d : α) :
    ∀ c ∈ search_candidates bounds vars d, InBounds bounds c := by
  intro c hc
  simp only [search_candidates, List.mem_flatMap, List.mem_range,
    List.mem_cons, List.mem_singleton] at hc
  obtain ⟨i, -, j, -, hc⟩ := hc
  rcases hc with h | h | h
  · exact h ▸ clamp_vars_inBounds bounds _ hb (perturb_vars_sameShape hs i j d)
  · exact h ▸ clamp_vars_inBounds bounds _ hb (perturb_vars_sameShape hs i j (-d))
  · cases h

/-- The fold that keeps the lowest-cost Variable Vector only ever returns the
current vector or one of the candidates, so it preserves any property they
all share. -/
theorem pick_best_pred {α β : Type} [LinearOrder β]
    (cost : List (List α) → β) (P : List (List α) → Prop) :
    ∀ (cands : List (List (List α))) (best : List (List α)),
      P best → (∀ c ∈ cands, P c) → P (pick_best cost cands best)
  | [], best, hbest, _ => hbest
  | c :: cands, best, hbest, hc => by
      have hstep : P (if cost c < cost best then c else best) := by
        split
        · exact hc c (List.mem_cons_self c cands)
        · exact hbest
      rw [pick_best, List.foldl_cons]
      exact pick_best_pred cost P cands _ hstep
        (fun x hx => hc x (List.mem_cons_of_mem c hx))

/-- The engine's iteration fold preserves being in bounds, whatever the cost
function: each step only ever moves to a clamped candidate. -/
theorem calibrate_fold_inBounds {α : Type} [LinearOrderedField α]
    (cost : List (List α) → α) (bounds : List (List (α × α)))
    (hb : ValidBounds bounds) :
    ∀ (l : List ℕ) (v : List (List α)), InBounds bounds v →
      InBounds bounds
        (l.foldl (fun vars k =>
          pick_best cost (search_candidates bounds vars ((1 : α) / 2 ^ k)) vars) v)
  | [], _, hv => hv
  | k :: l, v, hv => by
      rw [List.foldl_cons]
      exact calibrate_fold_inBounds cost bounds hb l _
        (pick_best_pred cost (InBounds bounds) _ v hv
          (search_candidates_inBounds hb (inBounds_sameShape hv) _))

/-- C3: for every bounds array and initial values of matching shape with
non-degenerate intervals, every scalar of the Variable Vector that
`GenericCalibration.calibrate` returns lies within its inclusive bound - for
every cost landscape, so in particular when the unconstrained optimum lies
outside the bounds - and every candidate the search generates is clamped into
the bounds before any cost evaluation (the engine's one uniform policy). -/
theorem calibrate_respects_bounds {α P O R2 : Type} [LinearOrderedField α]
    (estimate : O → P → R2) (base_parameters : P)
    (applicator : P → (ℕ → ℕ → α) → P)
    (objective_reducer : R2 → (Fin 3 → α))
    (samples : List (O × (Fin 3 → α)))
    (initial_values : List (List α)) (bounds : List (List (α × α)))
    (hb : ValidBounds bounds) (hs : SameShape bounds initial_values) :
    InBounds bounds
      (GenericCalibration.calibrate estimate base_parameters applicator
        objective_reducer samples initial_values bounds) ∧
    ∀ (vars : List (List α)) (d : α), SameShape bounds vars →
      ∀ c ∈ search_candidates bounds vars d, InBounds bounds c := by
  constructor
  · exact calibrate_fold_inBounds _ bounds hb _ _
      (clamp_vars_inBounds bounds _ hb hs)
  · exact fun vars d hsv => search_candidates_inBounds hb hsv d

/-- C3 witness: the theorem applied to a one-scalar calibration over the
rationals whose initial value 2 lies outside the bound interval [0, 1]. -/
theorem calibrate_respects_bounds_witness :
    ValidBounds [[((0 : ℚ), 1)]] ∧
    SameShape [[((0 : ℚ), 1)]] [[(2 : ℚ)]] ∧
    InBounds [[((0 : ℚ), 1)]]
      (GenericCalibration.calibrate (fun (_ : Unit) (_ : Unit) => ()) ()
        (fun _ _ => ()) (fun _ _ => (0 : ℚ))
        ([] : List (Unit × (Fin 3 → ℚ))) [[(2 : ℚ)]] [[((0 : ℚ), 1)]]) :=
  ⟨by decide, rfl,
    (calibrate_respects_bounds (fun (_ : Unit) (_ : Unit) => ()) ()
      (fun _ _ => ()) (fun _ _ => (0 : ℚ)) ([] : List (Unit × (Fin 3 → ℚ)))
      [[(2 : ℚ)]] [[((0 : ℚ), 1)]] (by decide) rfl).1⟩

/-- C5: `GenericCalibration.calibrate` returns a Variable Vector of the same
shape as the supplied initial values (same row count, same per-row lengths),
not the domain Parameter Bundle - its return type in this embedding is the
Variable Vector type - and the one-camera harness obtains the final bundle
only by passing the returned vector back through the applicator via the
adapter, as `onecamera_final_parameters` does. -/
theorem calibrate_returns_vector_of_initial_shape {α P O R2 : Type}
    [LinearOrderedField α]
    (estimate : O → P → R2) (base_parameters : P)
    (applicator : P → (ℕ → ℕ → α) → P)
    (objective_reducer : R2 → (Fin 3 → α))
    (samples : List (O × (Fin 3 → α)))
    (initial_values : List (List α)) (bounds : List (List (α × α)))
    (hb : ValidBounds bounds) (hs : SameShape bounds initial_values) :
    (GenericCalibration.calibrate estimate base_parameters applicator
      objective_reducer samples initial_values bounds).map List.length =
      initial_values.map List.length ∧
    (GenericCalibration.calibrate estimate base_parameters applicator
      objective_reducer samples initial_values bounds).length =
      initial_values.length ∧
    ∀ (est2 : PupilCenterGlintInputs → EyeAndCameraParameters →
        GazeEstimationOutcome)
      (samples2 : List (PupilCenterGlintInputs × Vec3)),
      onecamera_final_parameters est2 samples2 =
        six_variable_calibration_applicator onecamera_parameters
          (vecvec_to_pointer_pointer (onecamera_calibration_result est2 samples2)) := by
  have h1 : InBounds bounds
      (GenericCalibration.calibrate estimate base_parameters applicator
        objective_reducer samples initial_values bounds) :=
    calibrate_fold_inBounds _ bounds hb _ _
      (clamp_vars_inBounds bounds _ hb hs)
  have h2 := (inBounds_sameShape h1).symm.trans hs
  refine ⟨h2, ?_, fun _ _ => rfl⟩
  have h3 := congrArg List.length h2
  simpa [List.length_map] using h3

/-- C5 witness: the theorem applied to a one-scalar calibration over the
rationals; the returned vector keeps the 1 x 1 shape of the initial values. -/
theorem calibrate_returns_vector_of_initial_shape_witness :
    ValidBounds [[((0 : ℚ), 1)]] ∧
    (GenericCalibration.calibrate (fun (_ : Unit) (_ : Unit) => ()) ()
      (fun _ _ => ()) (fun _ _ => (0 : ℚ))
      ([] : List (Unit × (Fin 3 → ℚ))) [[(2 : ℚ)]] [[((0 : ℚ), 1)]]).map
        List.length = [[(2 : ℚ)]].map List.length :=
  ⟨by decide,
    (calibrate_returns_vector_of_initial_shape (fun (_ : Unit) (_ : Unit) => ())
      () (fun _ _ => ()) (fun _ _ => (0 : ℚ))
      ([] : List (Unit × (Fin 3 → ℚ))) [[(2 : ℚ)]] [[((0 : ℚ), 1)]]
      (by decide) rfl).1⟩

/-- The evaluation loop, from any accumulator state, appends exactly one
pixel error, one cm error and one estimate per sample, in order. -/
theorem onecamera_eval_foldl_spec
    (est : PupilCenterGlintInputs → EyeAndCameraParameters → GazeEstimationOutcome)
    (pars : EyeAndCameraParameters) (z_shift : ℝ) (wcs_offset : Vec3)
    (sx sy : ℝ) :
    ∀ (l : List (PupilCenterGlintInputs × Vec2)) (st : OneCameraEvalState),
      l.foldl (onecamera_eval_step est pars z_shift wcs_offset sx sy) st =
        { errors_pixels := st.errors_pixels ++
            l.map (onecamera_sample_error_pixels est pars z_shift wcs_offset sx sy)
          errors_cm := st.errors_cm ++
            l.map (onecamera_sample_error_cm est pars z_shift wcs_offset sx sy)
          estimates := st.estimates ++
            l.map (onecamera_sample_estimate est pars z_shift wcs_offset sx sy) }
  | [], st => by cases st; simp
  | a :: l, st => by
      rw [List.foldl_cons, onecamera_eval_foldl_spec est pars z_shift wcs_offset
        sx sy l]
      simp only [onecamera_eval_step, onecamera_sample_error_pixels,
        onecamera_sample_error_cm, onecamera_sample_estimate, List.map_cons,
        List.append_assoc, List.singleton_append]

/-- C4 (amended): the per-sample evaluation loop aggregates every sample,
succeeded or failed: each sample contributes exactly one pixel error and one
cm error, nothing is skipped or flagged (the loop never consults any failure
indication), and the reported averages divide the sum over all samples by the
total sample count - so a garbage result from a failed estimation propagates
into the reported averages. -/
theorem onecamera_eval_aggregates_every_sample
    (est : PupilCenterGlintInputs → EyeAndCameraParameters → GazeEstimationOutcome)
    (pars : EyeAndCameraParameters) (z_shift : ℝ) (wcs_offset : Vec3)
    (sx sy : ℝ) (test_data : List (PupilCenterGlintInputs × Vec2)) :
    (onecamera_eval est pars z_shift wcs_offset sx sy test_data).errors_pixels =
      test_data.map (onecamera_sample_error_pixels est pars z_shift wcs_offset sx sy) ∧
    (onecamera_eval est pars z_shift wcs_offset sx sy test_data).errors_cm =
      test_data.map (onecamera_sample_error_cm est pars z_shift wcs_offset sx sy) ∧
    (onecamera_eval est pars z_shift wcs_offset sx sy test_data).errors_pixels.length =
      test_data.length ∧
    onecamera_avg_error_pixels est pars z_shift wcs_offset sx sy test_data =
      (test_data.map (onecamera_sample_error_pixels est pars z_shift wcs_offset sx sy)).sum /
        (test_data.length : ℝ) ∧
    onecamera_avg_error_cm est pars z_shift wcs_offset sx sy test_data =
      (test_data.map (onecamera_sample_error_cm est pars z_shift wcs_offset sx sy)).sum /
        (test_data.length : ℝ) := by
  have h := onecamera_eval_foldl_spec est pars z_shift wcs_offset sx sy
    test_data ⟨[], [], []⟩
  have hpix : (onecamera_eval est pars z_shift wcs_offset sx sy
      test_data).errors_pixels =
      test_data.map (onecamera_sample_error_pixels est pars z_shift wcs_offset sx sy) := by
    rw [onecamera_eval, h]
    simp
  have hcm : (onecamera_eval est pars z_shift wcs_offset sx sy
      test_data).errors_cm =
      test_data.map (onecamera_sample_error_cm est pars z_shift wcs_offset sx sy) := by
    rw [onecamera_eval, h]
    simp
  refine ⟨hpix, hcm, ?_, ?_, ?_⟩
  · rw [hpix, List.length_map]
  · rw [onecamera_avg_error_pixels, hpix, List.length_map]
  · rw [onecamera_avg_error_cm, hcm, List.length_map]

/-- C4 counterexample: in a two-sample scenario where the second sample's
estimation fails (degenerate geometry flagged by the estimator) and leaves
the garbage cornea center (7, 0, 0), the reported average pixel error is
7/2 - the garbage error 7 of the failed sample is averaged in - while the
average over the succeeded samples only, which the claim prescribes, is 0. -/
theorem onecamera_average_includes_failed_sample :
    onecamera_avg_error_pixels eval_scenario_estimator eval_scenario_parameters
      0 0 1 1 eval_scenario_test_data = 7 / 2 ∧
    spec_avg_error_pixels_succeeded_only eval_scenario_estimator
      eval_scenario_parameters 0 0 1 1 eval_scenario_test_data = 0 ∧
    (7 : ℝ) / 2 ≠ 0 := by
  have hgood : eval_scenario_estimator eval_good_observation
      eval_scenario_parameters =
      ⟨⟨![0, 0, 0], ![0, 0, 1]⟩, true⟩ := rfl
  have hbad : eval_scenario_estimator eval_bad_observation
      eval_scenario_parameters =
      ⟨⟨![7, 0, 0], ![0, 0, 1]⟩, false⟩ := rfl
  have hcalc_good : calculate_point_of_interest ![0, 0, 0] ![0, 0, 1] 0 -
      (0 : Vec3) = ![0, 0, 0] := by
    funext i
    rw [calculate_point_of_interest]
    fin_cases i <;> norm_num
  have hcalc_bad : calculate_point_of_interest ![7, 0, 0] ![0, 0, 1] 0 -
      (0 : Vec3) = ![7, 0, 0] := by
    funext i
    rw [calculate_point_of_interest]
    fin_cases i <;> norm_num
  have hscreen_good : estimate_screen_point ![0, 0, 0] 1 1 - ![0, 0] =
      ![0, 0] := by
    funext i
    rw [estimate_screen_point]
    fin_cases i <;> norm_num
  have hscreen_bad : estimate_screen_point ![7, 0, 0] 1 1 - ![0, 0] =
      ![7, 0] := by
    funext i
    rw [estimate_screen_point]
    fin_cases i <;> norm_num
  have hlen_good : vec2_length ![0, 0] = 0 := by
    rw [vec2_length]
    norm_num
  have hlen_bad : vec2_length ![7, 0] = 7 := by
    rw [vec2_length]
    rw [show ((![(7:ℝ), 0]) 0 ^ 2 + (![(7:ℝ), 0]) 1 ^ 2) = 7 ^ 2 by norm_num,
      Real.sqrt_sq (by norm_num : (0:ℝ) ≤ 7)]
  have herr_good : onecamera_sample_error_pixels eval_scenario_estimator
      eval_scenario_parameters 0 0 1 1 (eval_good_observation, ![0, 0]) = 0 := by
    rw [onecamera_sample_error_pixels]
    simp only [hgood]
    rw [hcalc_good, hscreen_good, hlen_good]
  have herr_bad : onecamera_sample_error_pixels eval_scenario_estimator
      eval_scenario_parameters 0 0 1 1 (eval_bad_observation, ![0, 0]) = 7 := by
    rw [onecamera_sample_error_pixels]
    simp only [hbad]
    rw [hcalc_bad, hscreen_bad, hlen_bad]
  have hpix : (onecamera_eval eval_scenario_estimator eval_scenario_parameters
      0 0 1 1 eval_scenario_test_data).errors_pixels = [0, 7] := by
    rw [onecamera_eval, onecamera_eval_foldl_spec]
    simp only [eval_scenario_test_data, List.map_cons, List.map_nil,
      List.nil_append]
    rw [herr_good, herr_bad]
  refine ⟨?_, ?_, by norm_num⟩
  · rw [onecamera_avg_error_pixels, hpix]
    norm_num
  · rw [spec_avg_error_pixels_succeeded_only]
    simp only [eval_scenario_test_data, List.filter_cons, List.filter_nil,
      hgood, hbad]
    norm_num [herr_good]

end GazeEstimation
